import Mathlib

/-!
Verification development for the AI Coloring Book front-end.

The application is a two-screen React front-end (src/App.tsx) driving two
sequential external API calls (src/services/geminiService.ts).  We shallowly
embed its state machine: the component state is the record of the eight
useState hooks of App.tsx, each event handler becomes a pure function on that
record, and asynchronous resolution of an API call is modelled as a separate
event carrying the call's outcome (the continuation after the await applies
its setters with no further guard, exactly as in the source).
-/

namespace ColoringBook

/-- States of an API call, from the ApiState enum in src/types.ts. -/
inductive ApiState where
  | IDLE
  | LOADING
  | SUCCESS
  | ERROR
  deriving DecidableEq

/-- The two pages of App.tsx, the currentPage useState hook
('promptInput' | 'imageDisplay').  promptInput is the spec's PromptScreen
and imageDisplay the spec's ImageScreen. -/
inductive Page where
  | promptInput
  | imageDisplay
  deriving DecidableEq

/-- The component state of App.tsx: one field per useState hook, in source
order.  Option models the nullable values (string[] | null, string | null). -/
structure AppState where
  transcript : String
  generatedPrompt : String
  imageUrls : Option (List String)
  selectedImageUrls : List String
  promptApiState : ApiState
  imageApiState : ApiState
  error : Option String
  currentPage : Page
  deriving DecidableEq

/-- The initial values passed to the useState hooks in App.tsx. -/
def initialState : AppState :=
  { transcript := ""
    generatedPrompt := ""
    imageUrls := none
    selectedImageUrls := []
    promptApiState := ApiState.IDLE
    imageApiState := ApiState.IDLE
    error := none
    currentPage := Page.promptInput }

/-- The updater lambda passed to setSelectedImageUrls by App.tsx
handleToggleImageSelection: if the url is already selected it is filtered
out, otherwise it is appended. -/
def toggleSelectionList (prevSelected : List String) (url : String) :
    List String :=
  if url ∈ prevSelected then
    prevSelected.filter (fun selectedUrl => selectedUrl != url)
  else
    prevSelected ++ [url]

/-- App.tsx handleToggleImageSelection: apply the updater to the selection.
The handler checks membership in selectedImageUrls only; it never consults
imageUrls or imageApiState. -/
def handleToggleImageSelection (s : AppState) (url : String) : AppState :=
  { s with selectedImageUrls := toggleSelectionList s.selectedImageUrls url }

/-- Model of the JavaScript String.prototype.trim used by App.tsx: drop
whitespace from both ends.  Defined over the character list so that it
computes by structural recursion. -/
def jsTrim (s : String) : String :=
  String.mk
    (((s.data.dropWhile (fun c => c.isWhitespace)).reverse.dropWhile
        (fun c => c.isWhitespace)).reverse)

/-- App.tsx handleGeneratePrompt, up to the await: clears error, sets the
prompt call LOADING, resets the image call and selection, then bails out with
an error if the trimmed transcript is empty.  The Bool is true when the
handler proceeds to invoke generateColoringBookPrompt (the external prompt
refinement call). -/
def handleGeneratePromptStart (s : AppState) : AppState × Bool :=
  let s1 := { s with
      error := none
      promptApiState := ApiState.LOADING
      imageApiState := ApiState.IDLE
      imageUrls := none
      selectedImageUrls := [] }
  if jsTrim s.transcript = "" then
    ({ s1 with
        error := some ("Please enter an idea to generate a prompt.")
        promptApiState := ApiState.ERROR }, false)
  else
    (s1, true)

/-- App.tsx handleGeneratePrompt, after the await: the continuation applied
when the prompt refinement call settles.  Success stores the refined prompt,
marks SUCCESS and navigates to the image page; failure records the error,
marks ERROR and clears the prompt.  currentPage is untouched on failure. -/
def handleGeneratePromptResolve (s : AppState)
    (result : Except String String) : AppState :=
  match result with
  | Except.ok prompt =>
      { s with
          generatedPrompt := prompt
          promptApiState := ApiState.SUCCESS
          currentPage := Page.imageDisplay }
  | Except.error msg =>
      { s with
          error := some ("Failed to generate prompt: " ++ msg)
          promptApiState := ApiState.ERROR
          generatedPrompt := "" }

/-- App.tsx handleBackToPromptInput: navigate back and reset the image data,
leaving transcript, generatedPrompt, promptApiState and error untouched. -/
def handleBackToPromptInput (s : AppState) : AppState :=
  { s with
      currentPage := Page.promptInput
      imageUrls := none
      imageApiState := ApiState.IDLE
      selectedImageUrls := [] }

/-- The guard of the handleGenerateImage effect in App.tsx:
promptApiState === SUCCESS && generatedPrompt && currentPage === 'imageDisplay'
(a non-empty string is truthy). -/
def imageEffectGuard (s : AppState) : Bool :=
  s.promptApiState = ApiState.SUCCESS ∧ s.generatedPrompt ≠ "" ∧
    s.currentPage = Page.imageDisplay

/-- App.tsx handleGenerateImage (the useEffect body), up to the await: when
the guard holds, clears error, sets the image call LOADING and resets
images/selection.  The Bool is true when generateColoringBookImage (the
external image generation call) is invoked. -/
def handleGenerateImageStart (s : AppState) : AppState × Bool :=
  if imageEffectGuard s then
    ({ s with
        error := none
        imageApiState := ApiState.LOADING
        imageUrls := none
        selectedImageUrls := [] }, true)
  else
    (s, false)

/-- App.tsx handleGenerateImage, after the await: the continuation applied
when the image generation call settles.  It re-checks nothing: the setters
run whatever currentPage or the statuses are by then. -/
def handleGenerateImageResolve (s : AppState)
    (result : Except String (List String)) : AppState :=
  match result with
  | Except.ok urls =>
      { s with
          imageUrls := some urls
          imageApiState := ApiState.SUCCESS }
  | Except.error msg =>
      { s with
          error := some ("Failed to generate image: " ++ msg)
          imageApiState := ApiState.ERROR
          imageUrls := none }

/-- Events of the state machine.  editTranscript and toggleSelection and
goBack and submitPrompt are user intents forwarded by the view; imageEffect
is the internal useEffect firing; promptResolve and imageResolve deliver the
outcome of an outstanding external call back into the handlers. -/
inductive Event where
  | editTranscript (text : String)
  | submitPrompt
  | promptResolve (result : Except String String)
  | imageEffect
  | imageResolve (result : Except String (List String))
  | toggleSelection (url : String)
  | goBack

/-- One step of the state machine: dispatch the event to the corresponding
handler of App.tsx. -/
def step (s : AppState) (e : Event) : AppState :=
  match e with
  | Event.editTranscript t => { s with transcript := t }
  | Event.submitPrompt => (handleGeneratePromptStart s).1
  | Event.promptResolve r => handleGeneratePromptResolve s r
  | Event.imageEffect => (handleGenerateImageStart s).1
  | Event.imageResolve r => handleGenerateImageResolve s r
  | Event.toggleSelection url => handleToggleImageSelection s url
  | Event.goBack => handleBackToPromptInput s

/-- Run a sequence of events from a state. -/
def run (s : AppState) (es : List Event) : AppState :=
  es.foldl step s

/-- States reachable from the initial state by any event sequence.  This
over-approximates the real executions (a resolve event may fire even with no
call outstanding), which is the safe direction for invariants. -/
inductive Reachable : AppState → Prop where
  | init : Reachable initialState
  | next {s : AppState} (h : Reachable s) (e : Event) : Reachable (step s e)

/-!
Model of src/services/geminiService.ts.  A Gemini response is reduced to the
part list the code inspects (response.candidates?.[0]?.content?.parts || []);
the external generateContent call is an oracle parameter mapping the request
text to either a response or a thrown error message.
-/

/-- An inlineData payload of a response part: the base64 data together with
its optional mimeType. -/
structure InlineData where
  data : String
  mimeType : Option String
  deriving DecidableEq

/-- One part of a Gemini response; only the inlineData field is inspected. -/
structure ResponsePart where
  inlineData : Option InlineData
  deriving DecidableEq

/-- A Gemini generateContent response, reduced to the flattened part list
candidates?.[0]?.content?.parts || [] that the code iterates over. -/
structure GenResponse where
  parts : List ResponsePart
  deriving DecidableEq

/-- geminiService extractImageUrl: scan the parts for the first one carrying
inlineData with a mimeType and build a data URL from it; a part with
inlineData but no mimeType is skipped, and if no part qualifies the helper
throws. -/
def extractImageUrl (response : GenResponse) : Except String String :=
  match response.parts.findSome? (fun part =>
      match part.inlineData with
      | some d =>
          match d.mimeType with
          | some m => some ("data:" ++ m ++ ";base64," ++ d.data)
          | none => none
      | none => none) with
  | some url => Except.ok url
  | none =>
      Except.error
        ("Gemini did not return an image part with inlineData and mimeType.")

/-- The style suffix appended for the first image request (prompt1). -/
def comicStyleSuffix : String := ", classic comic book style, bold outlines"

/-- The style suffix appended for the second image request (prompt2). -/
def doodleStyleSuffix : String :=
  ", playful doodle art style, slightly simplified lines"

/-- geminiService generateColoringBookImage over a generateContent oracle:
request one image with the comic-style prompt, extract its URL, then request
a second with the doodle-style prompt and extract its URL; any throw along
the way is caught and rethrown with the prefix of the catch block. -/
def generateColoringBookImage
    (generateContent : String → Except String GenResponse)
    (prompt : String) : Except String (List String) :=
  let body : Except String (List String) :=
    match generateContent (prompt ++ comicStyleSuffix) with
    | Except.error e => Except.error e
    | Except.ok response1 =>
        match extractImageUrl response1 with
        | Except.error e => Except.error e
        | Except.ok u1 =>
            match generateContent (prompt ++ doodleStyleSuffix) with
            | Except.error e => Except.error e
            | Except.ok response2 =>
                match extractImageUrl response2 with
                | Except.error e => Except.error e
                | Except.ok u2 => Except.ok [u1, u2]
  match body with
  | Except.ok urls => Except.ok urls
  | Except.error e => Except.error ("Failed to generate image: " ++ e)

/-- The requests generateColoringBookImage actually issues: the doodle-style
request is sent only after the comic-style request has produced a usable
image (the first push happens before the second generateContent call). -/
def generateColoringBookImageRequests
    (generateContent : String → Except String GenResponse)
    (prompt : String) : List String :=
  match (generateContent (prompt ++ comicStyleSuffix)).bind extractImageUrl with
  | Except.ok _ => [prompt ++ comicStyleSuffix, prompt ++ doodleStyleSuffix]
  | Except.error _ => [prompt ++ comicStyleSuffix]

/-!
React scheduler model for the handleGenerateImage effect.  In App.tsx the
effect has dependency list [generatedPrompt, promptApiState, currentPage]:
after a commit it runs again exactly when one of those changed.  ExecState
carries, besides the component state, the dependency triple at the last
effect run and a ghost counter of image-generation attempts started.
-/

/-- The dependency triple of the handleGenerateImage useEffect. -/
def effectDeps (s : AppState) : String × ApiState × Page :=
  (s.generatedPrompt, s.promptApiState, s.currentPage)

/-- Execution state: component state plus the effect bookkeeping React keeps
(deps at the last effect run) and a ghost count of attempts started. -/
structure ExecState where
  app : AppState
  lastEffectDeps : String × ApiState × Page
  attempts : Nat

/-- Events a user or an in-flight call can inject from outside; the effect
itself is scheduled by reactStep, not injected. -/
inductive UserEvent where
  | editTranscript (text : String)
  | submitPrompt
  | promptResolve (result : Except String String)
  | imageResolve (result : Except String (List String))
  | toggleSelection (url : String)
  | goBack

/-- View a UserEvent as a state-machine event. -/
def UserEvent.toEvent : UserEvent → Event
  | UserEvent.editTranscript t => Event.editTranscript t
  | UserEvent.submitPrompt => Event.submitPrompt
  | UserEvent.promptResolve r => Event.promptResolve r
  | UserEvent.imageResolve r => Event.imageResolve r
  | UserEvent.toggleSelection u => Event.toggleSelection u
  | UserEvent.goBack => Event.goBack

/-- One scheduled step: run the event's handler, then run the
handleGenerateImage effect if its dependency triple changed since its last
run, counting an attempt when the effect actually starts the image call. -/
def reactStep (es : ExecState) (e : UserEvent) : ExecState :=
  let a := step es.app e.toEvent
  if effectDeps a ≠ es.lastEffectDeps then
    let pr := handleGenerateImageStart a
    { app := pr.1
      lastEffectDeps := effectDeps a
      attempts := es.attempts + (if pr.2 then 1 else 0) }
  else
    { es with app := a }

/-- Execution state at mount: the effect has run once on the initial state
(its guard fails there, so nothing is started). -/
def initialExecState : ExecState :=
  { app := initialState
    lastEffectDeps := effectDeps initialState
    attempts := 0 }

/-!
Theorems settling the claims.
-/

/-- C6: handleBackToPromptInput sets the page to promptInput and resets
imageUrls, imageApiState and the selection, while leaving transcript,
promptApiState and generatedPrompt exactly as they were. -/
theorem goBack_resets_images_and_keeps_prompt (s : AppState) :
    (handleBackToPromptInput s).currentPage = Page.promptInput ∧
    (handleBackToPromptInput s).imageUrls = none ∧
    (handleBackToPromptInput s).imageApiState = ApiState.IDLE ∧
    (handleBackToPromptInput s).selectedImageUrls = [] ∧
    (handleBackToPromptInput s).transcript = s.transcript ∧
    (handleBackToPromptInput s).promptApiState = s.promptApiState ∧
    (handleBackToPromptInput s).generatedPrompt = s.generatedPrompt := by
  simp [handleBackToPromptInput]

/-- C2: when the trimmed transcript is empty, SubmitPrompt keeps the page on
promptInput, ends with promptApiState ERROR and the validation error
message, invokes no prompt refinement call, and the image effect guard fails
on the resulting state, so no image generation call starts either. -/
theorem submitPrompt_empty_transcript_fails_locally (s : AppState)
    (hEmpty : jsTrim s.transcript = "")
    (hPage : s.currentPage = Page.promptInput) :
    ((handleGeneratePromptStart s).1).currentPage = Page.promptInput ∧
    ((handleGeneratePromptStart s).1).promptApiState = ApiState.ERROR ∧
    ((handleGeneratePromptStart s).1).error =
      some ("Please enter an idea to generate a prompt.") ∧
    (handleGeneratePromptStart s).2 = false ∧
    (handleGenerateImageStart (handleGeneratePromptStart s).1).2 = false := by
  simp [handleGeneratePromptStart, hEmpty, hPage, handleGenerateImageStart,
    imageEffectGuard]

/-- Witness for C2 at the initial state, whose transcript is empty. -/
theorem submitPrompt_empty_transcript_fails_locally_witness :
    jsTrim initialState.transcript = "" ∧
    initialState.currentPage = Page.promptInput ∧
    ((handleGeneratePromptStart initialState).1).promptApiState
      = ApiState.ERROR ∧
    (handleGeneratePromptStart initialState).2 = false :=
  ⟨by decide, by decide,
    (submitPrompt_empty_transcript_fails_locally initialState (by decide)
      (by decide)).2.1,
    (submitPrompt_empty_transcript_fails_locally initialState (by decide)
      (by decide)).2.2.2.1⟩

/-- A state on the image page with two generated images and nothing
selected, used to exercise handleToggleImageSelection. -/
def imagePageState : AppState :=
  { initialState with
      generatedPrompt := "A happy dinosaur, black and white line art"
      imageUrls := some ["imgA", "imgB"]
      promptApiState := ApiState.SUCCESS
      imageApiState := ApiState.SUCCESS
      currentPage := Page.imageDisplay }

/-- C3 counterexample: the locator c is not among the images imgA, imgB of
imagePageState, yet ToggleSelection c changes selected from [] to [c]: the
handler never consults imageUrls. -/
theorem toggleSelection_absent_locator_cex :
    ("c" ∈ ["imgA", "imgB"]) = False ∧
    imagePageState.imageUrls = some ["imgA", "imgB"] ∧
    imagePageState.imageApiState = ApiState.SUCCESS ∧
    imagePageState.selectedImageUrls = [] ∧
    (step imagePageState (Event.toggleSelection ("c"))).selectedImageUrls
      = ["c"] := by
  decide

/-- C3 amended: ToggleSelection u toggles membership of u in selected and
preserves membership of every other locator, regardless of whether u occurs
in imageUrls (the restriction to rendered images lives in the view layer,
which only emits the event for locators drawn from imageUrls). -/
theorem toggleSelection_membership (s : AppState) (u v : String) :
    v ∈ (step s (Event.toggleSelection u)).selectedImageUrls ↔
      (if v = u then u ∉ s.selectedImageUrls
       else v ∈ s.selectedImageUrls) := by
  simp only [step, handleToggleImageSelection, toggleSelectionList]
  by_cases hm : u ∈ s.selectedImageUrls <;>
    by_cases hv : v = u <;>
      simp [hm, hv, List.mem_filter, List.mem_append, bne_iff_ne]

/-- A state on the image page with three selected images, the middle one of
which is re-toggled in the C5 counterexample. -/
def threeSelectedState : AppState :=
  { imagePageState with
      imageUrls := some ["imgA", "imgX", "imgB"]
      selectedImageUrls := ["imgA", "imgX", "imgB"] }

/-- C5 counterexample: with imageApiState SUCCEEDED and
selected = [imgA, imgX, imgB], toggling imgX twice yields
[imgA, imgB, imgX]: the original membership returns but the original order
does not, because a re-added locator is appended at the end. -/
theorem toggleSelection_twice_order_cex :
    threeSelectedState.imageApiState = ApiState.SUCCESS ∧
    threeSelectedState.selectedImageUrls = ["imgA", "imgX", "imgB"] ∧
    (step (step threeSelectedState (Event.toggleSelection ("imgX")))
        (Event.toggleSelection ("imgX"))).selectedImageUrls
      = ["imgA", "imgB", "imgX"] ∧
    (["imgA", "imgB", "imgX"] : List String) ≠ ["imgA", "imgX", "imgB"] := by
  decide

/-- Toggling the same url twice on a duplicate-free selection list yields a
permutation of the original list, and the very same list back when the url
was absent. -/
theorem toggleSelectionList_twice (l : List String) (x : String)
    (hnd : l.Nodup) :
    (toggleSelectionList (toggleSelectionList l x) x).Perm l ∧
    (x ∉ l → toggleSelectionList (toggleSelectionList l x) x = l) := by
  by_cases hx : x ∈ l
  · have hxmem : x ∉ l.filter (fun selectedUrl => selectedUrl != x) := by
      simp [List.mem_filter]
    have hfilter : l.filter (fun selectedUrl => selectedUrl != x)
        = l.erase x := (List.Nodup.erase_eq_filter hnd x).symm
    have h1 : toggleSelectionList l x
        = l.filter (fun selectedUrl => selectedUrl != x) := by
      rw [toggleSelectionList, if_pos hx]
    refine ⟨?_, fun hxn => absurd hx hxn⟩
    rw [h1, toggleSelectionList, if_neg hxmem]
    exact (List.perm_append_singleton x _).trans
      (by rw [hfilter]; exact (List.perm_cons_erase hx).symm)
  · have hx2 : x ∈ l ++ [x] := by simp
    have hfilter2 : (l ++ [x]).filter (fun selectedUrl => selectedUrl != x)
        = l := by
      rw [List.filter_append]
      have h1 : l.filter (fun selectedUrl => selectedUrl != x) = l := by
        apply List.filter_eq_self.mpr
        intro v hv
        simp only [bne_iff_ne, ne_eq]
        intro hvx
        exact hx (hvx ▸ hv)
      simp [h1]
    have h1 : toggleSelectionList l x = l ++ [x] := by
      rw [toggleSelectionList, if_neg hx]
    have heq : toggleSelectionList (toggleSelectionList l x) x = l := by
      rw [h1, toggleSelectionList, if_pos hx2, hfilter2]
    exact ⟨by rw [heq], fun _ => heq⟩

/-- C5 amended: when selected has no duplicates (an invariant of reachable
states), toggling x twice returns selected to a permutation of its original
value, so membership is restored; the order itself is restored exactly in
the case where x was not selected to begin with. -/
theorem toggleSelection_twice_perm (s : AppState) (x : String)
    (hnd : s.selectedImageUrls.Nodup) :
    ((step (step s (Event.toggleSelection x))
        (Event.toggleSelection x)).selectedImageUrls).Perm
      s.selectedImageUrls ∧
    (x ∉ s.selectedImageUrls →
      (step (step s (Event.toggleSelection x))
          (Event.toggleSelection x)).selectedImageUrls
        = s.selectedImageUrls) := by
  simp only [step, handleToggleImageSelection]
  exact toggleSelectionList_twice s.selectedImageUrls x hnd

/-- Witness for C5 amended at a concrete duplicate-free selection. -/
theorem toggleSelection_twice_perm_witness :
    threeSelectedState.selectedImageUrls.Nodup ∧
    ((step (step threeSelectedState (Event.toggleSelection ("imgX")))
        (Event.toggleSelection ("imgX"))).selectedImageUrls).Perm
      threeSelectedState.selectedImageUrls :=
  ⟨by decide, (toggleSelection_twice_perm threeSelectedState ("imgX")
      (by decide)).1⟩

/-- Toggling preserves freedom from duplicates: filtering keeps a Nodup list
Nodup, and the url is appended only when it is not already present. -/
theorem toggleSelectionList_nodup (l : List String) (url : String)
    (h : l.Nodup) : (toggleSelectionList l url).Nodup := by
  by_cases hm : url ∈ l
  · rw [toggleSelectionList, if_pos hm]
    exact h.filter _
  · rw [toggleSelectionList, if_neg hm]
    apply List.Nodup.append h (List.nodup_singleton url)
    intro a ha hb
    rw [List.mem_singleton] at hb
    subst hb
    exact hm ha

/-- C10: in every reachable state the selection list has no duplicate
locators.  ToggleSelection appends a locator only when it is absent, and
every other handler that touches the selection resets it to []. -/
theorem reachable_selected_nodup (s : AppState) (h : Reachable s) :
    s.selectedImageUrls.Nodup := by
  induction h with
  | init => simp [initialState]
  | next hr e ih =>
      cases e with
      | editTranscript t => simpa [step] using ih
      | submitPrompt =>
          simp only [step, handleGeneratePromptStart]
          split <;> simp
      | promptResolve r =>
          cases r <;> simpa [step, handleGeneratePromptResolve] using ih
      | imageEffect =>
          simp only [step, handleGenerateImageStart]
          split
          · simp
          · exact ih
      | imageResolve r =>
          cases r <;> simpa [step, handleGenerateImageResolve] using ih
      | toggleSelection u =>
          simpa [step, handleToggleImageSelection] using
            toggleSelectionList_nodup _ u ih
      | goBack => simp [step, handleBackToPromptInput]

/-- Witness for C10 at the initial state. -/
theorem reachable_selected_nodup_witness :
    Reachable initialState ∧ initialState.selectedImageUrls.Nodup :=
  ⟨Reachable.init, reachable_selected_nodup initialState Reachable.init⟩

/-- C8: whenever a step moves imageApiState to LOADING (it was not LOADING
before), the pre-state satisfies promptApiState SUCCESS and currentPage
imageDisplay, and both still hold in the post-state: only the guarded
handleGenerateImage effect starts the image call. -/
theorem imageInFlight_requires_promptSuccess (s : AppState) (e : Event)
    (hpre : s.imageApiState ≠ ApiState.LOADING)
    (hpost : (step s e).imageApiState = ApiState.LOADING) :
    s.promptApiState = ApiState.SUCCESS ∧ s.currentPage = Page.imageDisplay ∧
    (step s e).promptApiState = ApiState.SUCCESS ∧
    (step s e).currentPage = Page.imageDisplay := by
  cases e with
  | editTranscript t =>
      simp only [step] at hpost
      exact absurd hpost hpre
  | submitPrompt =>
      by_cases hc : jsTrim s.transcript = "" <;>
        simp [step, handleGeneratePromptStart, hc] at hpost
  | promptResolve r =>
      cases r <;> simp only [step, handleGeneratePromptResolve] at hpost <;>
        exact absurd hpost hpre
  | imageEffect =>
      by_cases hb : imageEffectGuard s = true
      · have hg := hb
        simp only [imageEffectGuard, decide_eq_true_eq] at hg
        refine ⟨hg.1, hg.2.2, ?_, ?_⟩ <;>
          simp [step, handleGenerateImageStart, hb, hg.1, hg.2.2]
      · simp only [step, handleGenerateImageStart, if_neg hb] at hpost
        exact absurd hpost hpre
  | imageResolve r =>
      cases r <;> simp [step, handleGenerateImageResolve] at hpost
  | toggleSelection u =>
      simp only [step, handleToggleImageSelection] at hpost
      exact absurd hpost hpre
  | goBack =>
      simp [step, handleBackToPromptInput] at hpost

/-- Witness for C8: from imagePageState with an idle image call, the effect
event moves imageApiState to LOADING. -/
theorem imageInFlight_requires_promptSuccess_witness :
    imagePageState.imageApiState ≠ ApiState.LOADING ∧
    (step imagePageState Event.imageEffect).imageApiState
      = ApiState.LOADING ∧
    imagePageState.promptApiState = ApiState.SUCCESS ∧
    imagePageState.currentPage = Page.imageDisplay := by
  refine ⟨by decide, by decide, ?_, ?_⟩
  · exact (imageInFlight_requires_promptSuccess imagePageState
      Event.imageEffect (by decide) (by decide)).1
  · exact (imageInFlight_requires_promptSuccess imagePageState
      Event.imageEffect (by decide) (by decide)).2.1

/-- An execution in which the user submits a prompt, the refinement call
succeeds, the image effect starts the image call, the user goes back while
that call is still in flight (the effect re-runs on the page change with a
false guard), and finally the stale image call resolves successfully. -/
def staleResolveTrace : List Event :=
  [Event.editTranscript ("a happy dinosaur"),
   Event.submitPrompt,
   Event.promptResolve
     (Except.ok ("A happy dinosaur, black and white line art")),
   Event.imageEffect,
   Event.goBack,
   Event.imageEffect,
   Event.imageResolve
     (Except.ok ["data:image/png;base64,imgA", "data:image/png;base64,imgB"])]

/-- C1: the image call is in flight after the fourth event; GoBack then puts
the machine on promptInput with images absent and imageApiState IDLE; yet
the late success of the stale call is applied, not discarded: the final
state still shows promptInput but carries the stale images and
imageApiState SUCCESS. -/
theorem staleImageResolve_applied :
    (run initialState (staleResolveTrace.take 4)).imageApiState
      = ApiState.LOADING ∧
    (run initialState (staleResolveTrace.take 6)).currentPage
      = Page.promptInput ∧
    (run initialState (staleResolveTrace.take 6)).imageUrls = none ∧
    (run initialState (staleResolveTrace.take 6)).imageApiState
      = ApiState.IDLE ∧
    (run initialState staleResolveTrace).currentPage = Page.promptInput ∧
    (run initialState staleResolveTrace).imageUrls
      = some ["data:image/png;base64,imgA", "data:image/png;base64,imgB"] ∧
    (run initialState staleResolveTrace).imageApiState
      = ApiState.SUCCESS := by
  decide

/-- C7: generateColoringBookImage either succeeds with exactly the two data
URLs extracted from the comic-style request and then the doodle-style
request, in that order, or fails as a whole; a failed attempt, fed back to
the state machine, leaves imageUrls at none with imageApiState ERROR; and
when already the comic-style request yields no usable image, the
doodle-style request is never issued. -/
theorem imageGeneration_pair_or_atomic_failure
    (generateContent : String → Except String GenResponse)
    (prompt : String) (s : AppState) :
    ((∃ u1 u2,
        generateColoringBookImage generateContent prompt
          = Except.ok [u1, u2] ∧
        (generateContent (prompt ++ comicStyleSuffix)).bind extractImageUrl
          = Except.ok u1 ∧
        (generateContent (prompt ++ doodleStyleSuffix)).bind extractImageUrl
          = Except.ok u2 ∧
        (handleGenerateImageResolve s
            (generateColoringBookImage generateContent prompt)).imageUrls
          = some [u1, u2] ∧
        (handleGenerateImageResolve s
            (generateColoringBookImage generateContent prompt)).imageApiState
          = ApiState.SUCCESS) ∨
      (∃ msg,
        generateColoringBookImage generateContent prompt
          = Except.error msg ∧
        (handleGenerateImageResolve s
            (generateColoringBookImage generateContent prompt)).imageUrls
          = none ∧
        (handleGenerateImageResolve s
            (generateColoringBookImage generateContent prompt)).imageApiState
          = ApiState.ERROR)) ∧
    (∀ msg,
      (generateContent (prompt ++ comicStyleSuffix)).bind extractImageUrl
        = Except.error msg →
      generateColoringBookImageRequests generateContent prompt
        = [prompt ++ comicStyleSuffix]) := by
  constructor
  · cases hr1 : generateContent (prompt ++ comicStyleSuffix) with
    | error e =>
        right
        refine ⟨("Failed to generate image: " ++ e), ?_, ?_, ?_⟩ <;>
          simp [generateColoringBookImage, handleGenerateImageResolve, hr1]
    | ok r1 =>
        cases he1 : extractImageUrl r1 with
        | error e =>
            right
            refine ⟨("Failed to generate image: " ++ e), ?_, ?_, ?_⟩ <;>
              simp [generateColoringBookImage, handleGenerateImageResolve,
                hr1, he1]
        | ok u1 =>
            cases hr2 : generateContent (prompt ++ doodleStyleSuffix) with
            | error e =>
                right
                refine ⟨("Failed to generate image: " ++ e), ?_, ?_, ?_⟩ <;>
                  simp [generateColoringBookImage,
                    handleGenerateImageResolve, hr1, he1, hr2]
            | ok r2 =>
                cases he2 : extractImageUrl r2 with
                | error e =>
                    right
                    refine ⟨("Failed to generate image: " ++ e), ?_, ?_, ?_⟩ <;>
                      simp [generateColoringBookImage,
                        handleGenerateImageResolve, hr1, he1, hr2, he2]
                | ok u2 =>
                    left
                    refine ⟨u1, u2, ?_, ?_, ?_, ?_, ?_⟩ <;>
                      simp [generateColoringBookImage,
                        handleGenerateImageResolve, Except.bind, hr1, he1,
                        hr2, he2]
  · intro msg hmsg
    simp only [generateColoringBookImageRequests, hmsg]

/-- Witness for C7 at a concrete always-failing generateContent oracle: the
comic-style request fails, and the doodle-style request is never issued. -/
theorem imageGeneration_pair_or_atomic_failure_witness :
    ((fun _ : String =>
        (Except.error ("netfail") : Except String GenResponse))
      ("x" ++ comicStyleSuffix)).bind extractImageUrl
        = Except.error ("netfail") ∧
    generateColoringBookImageRequests
        (fun _ : String =>
          (Except.error ("netfail") : Except String GenResponse)) ("x")
      = [("x" ++ comicStyleSuffix)] :=
  ⟨rfl,
    (imageGeneration_pair_or_atomic_failure
      (fun _ : String =>
        (Except.error ("netfail") : Except String GenResponse))
      ("x") initialState).2 ("netfail") rfl⟩

/-- An execution that submits a prompt and, while the prompt call is still
in flight, receives a stale image-call failure (which records an error) and
then a second SubmitPrompt. -/
def submitWhileInFlightTrace : List Event :=
  [Event.editTranscript ("a happy dinosaur"),
   Event.submitPrompt,
   Event.imageResolve (Except.error ("boom")),
   Event.submitPrompt]

/-- C4 counterexample: after three events the prompt call is in flight
(promptApiState LOADING) and an error message is recorded; the fourth event,
SubmitPrompt, is not a no-op: it clears the error, so the state changes, and
the handler reports that it invoked the prompt refinement client again. -/
theorem submitPrompt_inFlight_cex :
    (run initialState (submitWhileInFlightTrace.take 3)).promptApiState
      = ApiState.LOADING ∧
    (run initialState (submitWhileInFlightTrace.take 3)).error
      = some ("Failed to generate image: boom") ∧
    (run initialState submitWhileInFlightTrace).error = none ∧
    run initialState submitWhileInFlightTrace
      ≠ run initialState (submitWhileInFlightTrace.take 3) ∧
    (handleGeneratePromptStart
        (run initialState (submitWhileInFlightTrace.take 3))).2 = true := by
  decide

/-- C4 amended: the handler itself has no InFlight guard.  Delivered while
promptApiState is LOADING with a non-empty trimmed transcript, SubmitPrompt
clears the error, resets the image call state and the selection, starts
another refinement call, and hence differs from a no-op whenever an error
was recorded.  The InFlight no-op of the spec is realized in the view layer,
which disables the submit control while promptApiState is LOADING. -/
theorem submitPrompt_inFlight_restarts (s : AppState)
    (hload : s.promptApiState = ApiState.LOADING)
    (ht : jsTrim s.transcript ≠ "") :
    (handleGeneratePromptStart s).1
      = { s with
          error := none
          promptApiState := ApiState.LOADING
          imageApiState := ApiState.IDLE
          imageUrls := none
          selectedImageUrls := [] } ∧
    (handleGeneratePromptStart s).2 = true ∧
    (s.error ≠ none → (handleGeneratePromptStart s).1 ≠ s) := by
  refine ⟨?_, ?_, ?_⟩
  · simp [handleGeneratePromptStart, ht]
  · simp [handleGeneratePromptStart, ht]
  · intro herr hs
    apply herr
    rw [← hs]
    simp [handleGeneratePromptStart, ht]

/-- Witness for C4 amended at the in-flight state reached by
submitWhileInFlightTrace.take 3, whose error field is set. -/
theorem submitPrompt_inFlight_restarts_witness :
    (run initialState (submitWhileInFlightTrace.take 3)).promptApiState
      = ApiState.LOADING ∧
    jsTrim (run initialState (submitWhileInFlightTrace.take 3)).transcript
      ≠ "" ∧
    (handleGeneratePromptStart
        (run initialState (submitWhileInFlightTrace.take 3))).2 = true :=
  ⟨by decide, by decide,
    (submitPrompt_inFlight_restarts
      (run initialState (submitWhileInFlightTrace.take 3))
      (by decide) (by decide)).2.1⟩

/-- Scheduled effect of a successful prompt resolution: the handler stores
the prompt, marks SUCCESS and navigates, the dependency triple has changed,
so the effect runs, its guard holds, and it starts the image call. -/
theorem reactStep_promptResolve_ok (es : ExecState) (p : String)
    (hdeps : es.lastEffectDeps = effectDeps es.app)
    (hload : es.app.promptApiState = ApiState.LOADING)
    (hp : p ≠ "") :
    reactStep es (UserEvent.promptResolve (Except.ok p))
      = { app := { es.app with
              generatedPrompt := p
              promptApiState := ApiState.SUCCESS
              currentPage := Page.imageDisplay
              error := none
              imageApiState := ApiState.LOADING
              imageUrls := none
              selectedImageUrls := [] }
          lastEffectDeps := (p, ApiState.SUCCESS, Page.imageDisplay)
          attempts := es.attempts + 1 } := by
  have hne : effectDeps
      (step es.app (UserEvent.promptResolve (Except.ok p)).toEvent)
        ≠ es.lastEffectDeps := by
    rw [hdeps]
    simp [effectDeps, UserEvent.toEvent, step, handleGeneratePromptResolve,
      hload, Prod.ext_iff]
  rw [reactStep, if_pos hne]
  simp [UserEvent.toEvent, step, handleGeneratePromptResolve,
    handleGenerateImageStart, imageEffectGuard, effectDeps, hp]

/-- C9: a successful prompt resolution (the refinement client never returns
an empty prompt) navigates to the image page and marks the prompt SUCCESS,
and its scheduled effect starts exactly one image-generation attempt; a
failing resolution does not navigate, marks ERROR and starts no attempt; and
after a successful resolution no later image resolution, selection toggle,
transcript edit or GoBack starts another attempt. -/
theorem promptSuccess_navigates_and_starts_one_attempt
    (es : ExecState) (p msg : String)
    (hdeps : es.lastEffectDeps = effectDeps es.app)
    (hload : es.app.promptApiState = ApiState.LOADING)
    (hp : p ≠ "") :
    (reactStep es (UserEvent.promptResolve (Except.ok p))).app.currentPage
      = Page.imageDisplay ∧
    (reactStep es (UserEvent.promptResolve (Except.ok p))).app.promptApiState
      = ApiState.SUCCESS ∧
    (reactStep es (UserEvent.promptResolve (Except.ok p))).app.imageApiState
      = ApiState.LOADING ∧
    (reactStep es (UserEvent.promptResolve (Except.ok p))).attempts
      = es.attempts + 1 ∧
    (reactStep es (UserEvent.promptResolve (Except.error msg))).app.currentPage
      = es.app.currentPage ∧
    (reactStep es
        (UserEvent.promptResolve (Except.error msg))).app.promptApiState
      = ApiState.ERROR ∧
    (reactStep es (UserEvent.promptResolve (Except.error msg))).attempts
      = es.attempts ∧
    (∀ r, (reactStep (reactStep es (UserEvent.promptResolve (Except.ok p)))
        (UserEvent.imageResolve r)).attempts = es.attempts + 1) ∧
    (∀ u, (reactStep (reactStep es (UserEvent.promptResolve (Except.ok p)))
        (UserEvent.toggleSelection u)).attempts = es.attempts + 1) ∧
    (∀ t, (reactStep (reactStep es (UserEvent.promptResolve (Except.ok p)))
        (UserEvent.editTranscript t)).attempts = es.attempts + 1) ∧
    (reactStep (reactStep es (UserEvent.promptResolve (Except.ok p)))
        UserEvent.goBack).attempts = es.attempts + 1 := by
  have hok := reactStep_promptResolve_ok es p hdeps hload hp
  have hneE : effectDeps
      (step es.app (UserEvent.promptResolve (Except.error msg)).toEvent)
        ≠ es.lastEffectDeps := by
    rw [hdeps]
    simp [effectDeps, UserEvent.toEvent, step, handleGeneratePromptResolve,
      hload, Prod.ext_iff]
  have herr : reactStep es (UserEvent.promptResolve (Except.error msg))
      = { app := { es.app with
              error := some ("Failed to generate prompt: " ++ msg)
              promptApiState := ApiState.ERROR
              generatedPrompt := "" }
          lastEffectDeps := ("", ApiState.ERROR, es.app.currentPage)
          attempts := es.attempts } := by
    rw [reactStep, if_pos hneE]
    simp [UserEvent.toEvent, step, handleGeneratePromptResolve,
      handleGenerateImageStart, imageEffectGuard, effectDeps]
  refine ⟨by rw [hok], by rw [hok], by rw [hok], by rw [hok],
    by rw [herr], by rw [herr], by rw [herr], ?_, ?_, ?_, ?_⟩
  · intro r
    rw [hok, reactStep,
      if_neg (by cases r <;>
        simp [effectDeps, UserEvent.toEvent, step, handleGenerateImageResolve])]
  · intro u
    rw [hok, reactStep,
      if_neg (by
        simp [effectDeps, UserEvent.toEvent, step, handleToggleImageSelection])]
  · intro t
    rw [hok, reactStep, if_neg (by simp [effectDeps, UserEvent.toEvent, step])]
  · rw [hok, reactStep,
      if_pos (by
        simp [effectDeps, UserEvent.toEvent, step, handleBackToPromptInput,
          Prod.ext_iff])]
    simp [UserEvent.toEvent, step, handleBackToPromptInput,
      handleGenerateImageStart, imageEffectGuard]

/-- Witness for C9: the concrete execution that edits the transcript and
submits it, at the moment its prompt call is in flight. -/
theorem promptSuccess_navigates_and_starts_one_attempt_witness :
    (reactStep (reactStep initialExecState
        (UserEvent.editTranscript ("a happy dinosaur")))
        UserEvent.submitPrompt).lastEffectDeps
      = effectDeps (reactStep (reactStep initialExecState
          (UserEvent.editTranscript ("a happy dinosaur")))
          UserEvent.submitPrompt).app ∧
    (reactStep (reactStep initialExecState
        (UserEvent.editTranscript ("a happy dinosaur")))
        UserEvent.submitPrompt).app.promptApiState = ApiState.LOADING ∧
    ("A happy dinosaur, black and white line art" : String) ≠ "" ∧
    (reactStep (reactStep (reactStep initialExecState
        (UserEvent.editTranscript ("a happy dinosaur")))
        UserEvent.submitPrompt)
        (UserEvent.promptResolve
          (Except.ok ("A happy dinosaur, black and white line art")))).attempts
      = (reactStep (reactStep initialExecState
          (UserEvent.editTranscript ("a happy dinosaur")))
          UserEvent.submitPrompt).attempts + 1 :=
  ⟨by decide, by decide, by decide,
    (promptSuccess_navigates_and_starts_one_attempt
      (reactStep (reactStep initialExecState
        (UserEvent.editTranscript ("a happy dinosaur")))
        UserEvent.submitPrompt)
      ("A happy dinosaur, black and white line art") ("unused")
      (by decide) (by decide) (by decide)).2.2.2.1⟩

end ColoringBook
